import Mathlib

/-!
# MidTask: doctor and patient dashboards

A shallow embedding of `src/components/doctor.js` and `src/components/patiant.js`.

* React state cells (`useState`) are the fields of `DoctorState` and `PatientState`;
  a handler is a function from the state it closes over to the state after its setters ran.
* Everything a handler does outside the component (Firestore documents, `alert`,
  `console`, `navigate`, live listeners) is recorded in `Effects`.
* Firestore and `Date` are collaborators of the components: the embedding fixes the
  part of their contract the handlers rely on (`getDoc`, `setDoc` with `merge: true`,
  `addDoc`, `query ... where ==`) and takes the rest as parameters (`parseDate`, the outcome of
  an `addDoc` call).
-/

namespace MidTask

/-! ## JavaScript values and documents -/

/-- The JavaScript values a Firestore field or a state cell of the dashboards can hold.
A missing property (`undefined`) is the `none` of a lookup, see `Fields`. -/
inductive JsVal where
  | null
  | bool (b : Bool)
  | num (n : Int)
  | str (s : String)
  | date (ms : Int)
deriving DecidableEq, Repr

/-- JavaScript truthiness: `null`, `false`, `0` and `''` are falsy, a `Date` object is truthy. -/
def JsVal.truthy : JsVal → Bool
  | .null => false
  | .bool b => b
  | .num n => n != 0
  | .str s => s != ""
  | .date _ => true

/-- The expression `a || b` where `a` is a property read: `none` is `undefined`, which is falsy. -/
def jsOr (a : Option JsVal) (b : JsVal) : JsVal :=
  match a with
  | some v => if v.truthy then v else b
  | none => b

/-- A plain object / the data of a Firestore document: field name to value. -/
abbrev Fields := String → Option JsVal

/-- The object literal `{}`. -/
def emptyFields : Fields := fun _ => none

/-- The object literal with the listed properties, in source order (a later one wins). -/
def objectOf : List (String × JsVal) → Fields
  | [] => emptyFields
  | (k, v) :: rest => fun key =>
      match objectOf rest key with
      | some w => some w
      | none => if key = k then some v else none

/-- The value of a nullable `userId` state cell as a document field. -/
def idValue : Option String → JsVal
  | some uid => .str uid
  | none => .null

/-! ## The document store -/

/-- The documents of one collection, each with its storage id. -/
abbrev Collection := List (String × Fields)

/-- Firestore: collection name to its documents. -/
abbrev Store := String → Collection

/-- The overlay `setDoc(ref, fields, { merge: true })` leaves in a stored document: the given
fields take their new value, every other field keeps the stored one. -/
def mergeFields (old new : Fields) : Fields := fun key =>
  match new key with
  | some v => some v
  | none => old key

/-- The data of `getDoc(doc(db, coll, id))`: `none` when `exists()` is false. -/
def getDoc (s : Store) (coll id : String) : Option Fields :=
  ((s coll).find? (fun d => d.1 == id)).map (fun d => d.2)

/-- Upsert of one document in a collection. -/
def upsertDoc (id : String) (fields : Fields) : Collection → Collection
  | [] => [(id, fields)]
  | (i, d) :: rest =>
      if i = id then (i, mergeFields d fields) :: rest
      else (i, d) :: upsertDoc id fields rest

/-- The store after `setDoc(doc(db, coll, id), fields, { merge: true })` resolved. -/
def setDocMerge (s : Store) (coll id : String) (fields : Fields) : Store := fun c =>
  if c = coll then upsertDoc id fields (s c) else s c

/-- The store after `addDoc(collection(db, coll), fields)` resolved with the generated id. -/
def addDoc (s : Store) (coll newId : String) (fields : Fields) : Store := fun c =>
  if c = coll then s c ++ [(newId, fields)] else s c

/-- The documents of `query(collection(db, coll), where(field, '==', v))`: the documents
whose field equals `v`. The query has no `orderBy`, so Firestore returns them in ascending
order of document id (ids compared character by character). -/
def queryWhere (s : Store) (coll field : String) (v : JsVal) : Collection :=
  ((s coll).filter (fun d => decide (d.2 field = some v))).insertionSort
    (fun a b => a.1.data ≤ b.1.data)

/-- The `appointments` collection holds appointment documents: the id of an appointment is
the storage id of its document, generated by `addDoc`, and not a field of its data, as in
the documents written at patiant.js 81-86. -/
@[reducible] def storageIdsOnly (s : Store) : Prop :=
  ∀ doc ∈ s "appointments", doc.2 "id" = none

/-! ## Effects outside the component -/

/-- A live listener registered by a dashboard. -/
inductive Subscription where
  | authState
  | appointmentsQuery (doctorId : String)
deriving DecidableEq, Repr

/-- What a handler leaves outside the component state. -/
structure Effects where
  store : Store
  alerts : List String
  console : List String
  navigations : List String
  subscriptions : List Subscription

/-- The call `alert(msg)`. -/
def Effects.alert (fx : Effects) (msg : String) : Effects :=
  { fx with alerts := fx.alerts ++ [msg] }

/-! ## patiant.js -/

/-- The state cells of `PatientDashboard`. -/
structure PatientState where
  patientDetails : Fields
  name : JsVal
  contactDetails : JsVal
  medicalHistory : JsVal
  userId : Option String
  doctors : List Fields
  selectedDoctorId : String
  dateTime : String
  notes : String
  isEditing : Bool
  showAppointment : Bool

namespace PatientDashboard

/-- The initial values of the `useState` calls. -/
def init : PatientState :=
  { patientDetails := emptyFields, name := .str "", contactDetails := .str "",
    medicalHistory := .str "", userId := none, doctors := [], selectedDoctorId := "",
    dateTime := "", notes := "", isEditing := false, showAppointment := false }

/-- Lines 35-48. -/
def fetchPatientDetails (id : String) (st : PatientState) (fx : Effects) :
    PatientState × Effects :=
  match getDoc fx.store "patients" id with
  | some data =>
      ({ st with patientDetails := data,
                 name := jsOr (data "name") (.str ""),
                 contactDetails := jsOr (data "contactDetails") (.str ""),
                 medicalHistory := jsOr (data "medicalHistory") (.str "") }, fx)
  | none => (st, { fx with console := fx.console ++ ["No such document!"] })

/-- Lines 60-65. `doc(db, 'patients', userId)` throws on a `null` id: `none`. -/
def handleSaveDetails (st : PatientState) (fx : Effects) : Option (PatientState × Effects) :=
  match st.userId with
  | none => none
  | some uid =>
      let fields := objectOf [("name", st.name), ("contactDetails", st.contactDetails),
        ("medicalHistory", st.medicalHistory)]
      some ({ st with isEditing := false },
            { fx with store := setDocMerge fx.store "patients" uid fields,
                      alerts := fx.alerts ++ ["Patient details saved successfully."] })

/-- Lines 95-99. -/
def clearAppointmentForm (st : PatientState) : PatientState :=
  { st with selectedDoctorId := "", dateTime := "", notes := "" }

/-- The object handed to `addDoc` at lines 81-86. -/
def appointmentDoc (st : PatientState) (ms : Int) : Fields :=
  objectOf [("doctorId", .str st.selectedDoctorId), ("patientId", idValue st.userId),
    ("dateTime", .date ms), ("notes", .str st.notes)]

/-- The `catch` block, lines 89-92. -/
def bookingFailed (fx : Effects) (message : String) : Effects :=
  { fx with console := fx.console ++ ["Error booking appointment: " ++ message],
            alerts := fx.alerts ++ ["Error booking appointment: " ++ message] }

/-- Lines 67-93. `parseDate s` is the time value of `new Date(s)`, `none` when it is `NaN`;
`addOutcome` is how the awaited `addDoc` call settles: the generated id, or the message of
the error it rejects with. -/
def handleBookAppointment (parseDate : String → Option Int) (addOutcome : Except String String)
    (st : PatientState) (fx : Effects) : PatientState × Effects :=
  if st.selectedDoctorId = "" ∨ st.dateTime = "" then
    (st, fx.alert "Please select a doctor and choose a date/time.")
  else
    match parseDate st.dateTime with
    | none =>
        (st, bookingFailed fx "Invalid date/time format. Please ensure it is correctly selected.")
    | some ms =>
        match addOutcome with
        | .error message => (st, bookingFailed fx message)
        | .ok newId =>
            (clearAppointmentForm st,
             { fx with store := addDoc fx.store "appointments" newId (appointmentDoc st ms),
                       alerts := fx.alerts ++ ["Appointment booked successfully!"] })

/-- The button at line 161. -/
def toggleAppointmentForm (st : PatientState) : PatientState :=
  { st with showAppointment := !st.showAppointment }

/-- The `onChange` of the name input, line 120. -/
def setName (value : String) (st : PatientState) : PatientState :=
  { st with name := .str value }

/-- The `onChange` of the contact details input, line 129. -/
def setContactDetails (value : String) (st : PatientState) : PatientState :=
  { st with contactDetails := .str value }

/-- The `onChange` of the medical history input, line 137. -/
def setMedicalHistory (value : String) (st : PatientState) : PatientState :=
  { st with medicalHistory := .str value }

/-- The `Edit Details` button, line 153. -/
def editDetails (st : PatientState) : PatientState := { st with isEditing := true }

/-- The `Cancel` button, line 144. -/
def cancelEdit (st : PatientState) : PatientState := { st with isEditing := false }

end PatientDashboard

/-! ## doctor.js -/

/-- An entry of the `schedule` array, the object built at lines 76-80. -/
structure Slot where
  startTime : String
  endTime : String
  available : Bool
deriving DecidableEq, Repr

/-- The state cells of `DoctorDashboard`. -/
structure DoctorState where
  doctorDetails : Fields
  schedule : List Slot
  appointments : List Fields
  activeSection : String
  startTime : String
  endTime : String
  available : Bool
  isEditing : Bool
  name : JsVal
  specialization : JsVal
  userId : Option String

namespace DoctorDashboard

/-- The initial values of the `useState` calls. -/
def init : DoctorState :=
  { doctorDetails := emptyFields, schedule := [], appointments := [],
    activeSection := "details", startTime := "", endTime := "", available := false,
    isEditing := false, name := .str "", specialization := .str "", userId := none }

/-- Lines 35-47. -/
def fetchDoctorDetails (id : String) (st : DoctorState) (fx : Effects) :
    DoctorState × Effects :=
  match getDoc fx.store "doctors" id with
  | some data =>
      ({ st with doctorDetails := data,
                 name := jsOr (data "name") (.str ""),
                 specialization := jsOr (data "specialization") (.str "") }, fx)
  | none => (st, { fx with console := fx.console ++ ["No such document!"] })

/-- The element built by the `map` callback at lines 53-56: `{ id: doc.id, ...doc.data() }`.
The spread comes after `id`: a property of the data named `id` would take its place. -/
def snapshotEntry (d : String × Fields) : Fields := fun key =>
  match d.2 key with
  | some v => some v
  | none => if key = "id" then some (.str d.1) else none

/-- The `onSnapshot` callback, lines 52-58, run on the documents of one snapshot. -/
def onAppointmentsSnapshot (docs : Collection) (st : DoctorState) : DoctorState :=
  { st with appointments := docs.map snapshotEntry }

/-- Lines 49-61: the listener on the query is registered; the function returns its
`unsubscribe` handle, here the subscription it would release. -/
def fetchAppointments (doctorId : String) (fx : Effects) : Subscription × Effects :=
  (.appointmentsQuery doctorId,
   { fx with subscriptions := fx.subscriptions ++ [.appointmentsQuery doctorId] })

/-- One snapshot update of the query of `fetchAppointments doctorId`: Firestore evaluates the
query on the current store and calls the listener with the result. -/
def snapshotUpdate (doctorId : String) (s : Store) (st : DoctorState) : DoctorState :=
  onAppointmentsSnapshot (queryWhere s "appointments" "doctorId" (.str doctorId)) st

/-- Lines 63-68. `doc(db, 'doctors', userId)` throws on a `null` id: `none`. -/
def handleSaveDetails (st : DoctorState) (fx : Effects) : Option (DoctorState × Effects) :=
  match st.userId with
  | none => none
  | some uid =>
      let fields := objectOf [("name", st.name), ("specialization", st.specialization)]
      some ({ st with isEditing := false },
            { fx with store := setDocMerge fx.store "doctors" uid fields,
                      alerts := fx.alerts ++ ["Doctor details saved successfully."] })

/-- Lines 86-90. -/
def clearSlotForm (st : DoctorState) : DoctorState :=
  { st with startTime := "", endTime := "", available := false }

/-- Lines 70-84. -/
def handleSaveSlot (st : DoctorState) (fx : Effects) : DoctorState × Effects :=
  if st.startTime = "" ∨ st.endTime = "" then
    (st, fx.alert "Please select start and end time.")
  else
    let slot : Slot := { startTime := st.startTime, endTime := st.endTime,
                         available := st.available }
    (clearSlotForm { st with schedule := st.schedule ++ [slot] },
     fx.alert "Slot added successfully!")

/-- The user fills the three inputs of the schedule form (lines 164-187) and presses
`Add Slot` (line 189). -/
def addSlot (slot : Slot) (p : DoctorState × Effects) : DoctorState × Effects :=
  handleSaveSlot { p.1 with startTime := slot.startTime, endTime := slot.endTime,
                            available := slot.available } p.2

/-- A run of `addSlot` actions, each on the state the previous one left. -/
def addSlots (slots : List Slot) (p : DoctorState × Effects) : DoctorState × Effects :=
  slots.foldl (fun acc slot => addSlot slot acc) p

/-- The `onChange` of the name input, line 127. -/
def setName (value : String) (st : DoctorState) : DoctorState := { st with name := .str value }

/-- The `onChange` of the specialization input, line 136. -/
def setSpecialization (value : String) (st : DoctorState) : DoctorState :=
  { st with specialization := .str value }

/-- The `Edit Details` button, line 151. -/
def editDetails (st : DoctorState) : DoctorState := { st with isEditing := true }

/-- The `Cancel` button, line 143. -/
def cancelEdit (st : DoctorState) : DoctorState := { st with isEditing := false }

/-- The effect body, lines 22-30, up to the registration: `onAuthStateChanged` is called and
its `unsubscribe` handle is what the cleanup of line 32 holds. -/
def mount (fx : Effects) : Effects :=
  { fx with subscriptions := fx.subscriptions ++ [.authState] }

/-- The auth listener, lines 22-30, called with the signed-in user's `uid` or with `null`.
The handle `fetchAppointments` returns is dropped at line 26. -/
def onAuthStateChanged (user : Option String) (st : DoctorState) (fx : Effects) :
    DoctorState × Effects :=
  match user with
  | some uid =>
      let p := fetchDoctorDetails uid { st with userId := some uid } fx
      (p.1, (fetchAppointments uid p.2).2)
  | none => (st, { fx with navigations := fx.navigations ++ ["/login"] })

/-- The cleanup of the effect, line 32: only the auth listener's `unsubscribe` is called. -/
def unmount (fx : Effects) : Effects :=
  { fx with subscriptions := fx.subscriptions.erase .authState }

/-- The listeners Firestore calls when the `appointments` collection changes: one snapshot
update for every query listener still registered, each running the `onSnapshot` callback of
lines 52-58 and its `setAppointments` call. A released listener is not called. -/
def deliverSnapshots (st : DoctorState) (fx : Effects) : DoctorState :=
  fx.subscriptions.foldl
    (fun acc sub =>
      match sub with
      | .appointmentsQuery d => snapshotUpdate d fx.store acc
      | .authState => acc)
    st

end DoctorDashboard

/-! ## Concrete inputs -/

/-- Nothing stored, nothing alerted, no listener. -/
def noEffects : Effects :=
  { store := fun _ => [], alerts := [], console := [], navigations := [], subscriptions := [] }

/-- A sample for the `parseDate` parameter: it accepts the one string
`2025-01-01T10:00` and rejects every other. -/
def sampleParseDate (s : String) : Option Int :=
  if s = "2025-01-01T10:00" then some 1735725600000 else none

/-- The booking form filled by client `p1` for doctor `d1`, form visible. -/
def sampleBooking : PatientState :=
  { PatientDashboard.init with
    userId := some "p1", selectedDoctorId := "d1", dateTime := "2025-01-01T10:00",
    notes := "checkup", showAppointment := true }

/-- Doctor `d1` with the details form filled: a name and an empty specialization. -/
def sampleDoctor : DoctorState :=
  { DoctorDashboard.init with
    userId := some "d1", name := .str "Ann", specialization := .str "" }

/-- Client `p1` with the details form filled, the medical history left empty. -/
def samplePatient : PatientState :=
  { PatientDashboard.init with
    userId := some "p1", name := .str "Bob", contactDetails := .str "bob@example.org",
    medicalHistory := .str "" }

/-- A store with one profile of each kind, each with a field the dashboards do not edit. -/
def sampleProfiles : Effects :=
  { noEffects with
    store := fun c =>
      if c = "doctors" then
        [("d1", objectOf [("name", .str "Old"), ("role", .str "doctor")])]
      else if c = "patients" then
        [("p1", objectOf [("name", .str "Old"), ("role", .str "patient")])]
      else [] }

/-- The doctor dashboard mounted on `sampleProfiles`, the auth listener called with the
signed-in doctor `d1`, then the view torn down. -/
def afterTeardown : DoctorState × Effects :=
  let p := DoctorDashboard.onAuthStateChanged (some "d1") DoctorDashboard.init
    (DoctorDashboard.mount sampleProfiles)
  (p.1, DoctorDashboard.unmount p.2)

/-- The store of `afterTeardown` after client `p1` booked doctor `d1`. -/
def bookedAfterTeardown : Effects :=
  (PatientDashboard.handleBookAppointment sampleParseDate (.ok "a1") sampleBooking
    afterTeardown.2).2

/-- Doctor `d1` loads the profile of `sampleProfiles`, presses Edit, types a name, presses
Cancel and presses Edit again. -/
def doctorEditCancelEdit : DoctorState :=
  DoctorDashboard.editDetails
    (DoctorDashboard.cancelEdit
      (DoctorDashboard.setName "Typed"
        (DoctorDashboard.editDetails
          (DoctorDashboard.fetchDoctorDetails "d1" DoctorDashboard.init sampleProfiles).1)))

/-- Client `p1` loads the profile of `sampleProfiles`, presses Edit, types a name, presses
Cancel and presses Edit again. -/
def patientEditCancelEdit : PatientState :=
  PatientDashboard.editDetails
    (PatientDashboard.cancelEdit
      (PatientDashboard.setName "Typed"
        (PatientDashboard.editDetails
          (PatientDashboard.fetchPatientDetails "p1" PatientDashboard.init sampleProfiles).1)))

/-! ## Booking an appointment -/

section Booking

open PatientDashboard

theorem appointmentDoc_doctorId (st : PatientState) (ms : Int) :
    appointmentDoc st ms "doctorId" = some (.str st.selectedDoctorId) := by
  simp [appointmentDoc, objectOf, emptyFields]

theorem appointmentDoc_patientId (st : PatientState) (ms : Int) :
    appointmentDoc st ms "patientId" = some (idValue st.userId) := by
  simp [appointmentDoc, objectOf, emptyFields]

theorem appointmentDoc_dateTime (st : PatientState) (ms : Int) :
    appointmentDoc st ms "dateTime" = some (.date ms) := by
  simp [appointmentDoc, objectOf, emptyFields]

theorem appointmentDoc_notes (st : PatientState) (ms : Int) :
    appointmentDoc st ms "notes" = some (.str st.notes) := by
  simp [appointmentDoc, objectOf, emptyFields]

theorem appointmentDoc_other (st : PatientState) (ms : Int) (key : String)
    (h1 : key ≠ "doctorId") (h2 : key ≠ "patientId") (h3 : key ≠ "dateTime")
    (h4 : key ≠ "notes") : appointmentDoc st ms key = none := by
  simp [appointmentDoc, objectOf, emptyFields, h1, h2, h3, h4]

theorem handleBookAppointment_ok (parseDate : String → Option Int) (st : PatientState)
    (fx : Effects) (ms : Int) (newId : String)
    (hd : st.selectedDoctorId ≠ "") (ht : st.dateTime ≠ "")
    (hp : parseDate st.dateTime = some ms) :
    handleBookAppointment parseDate (.ok newId) st fx =
      (clearAppointmentForm st,
       { fx with store := addDoc fx.store "appointments" newId (appointmentDoc st ms),
                 alerts := fx.alerts ++ ["Appointment booked successfully!"] }) := by
  simp [handleBookAppointment, hd, ht, hp]

theorem handleBookAppointment_missing (parseDate : String → Option Int)
    (addOutcome : Except String String) (st : PatientState) (fx : Effects)
    (h : st.selectedDoctorId = "" ∨ st.dateTime = "") :
    handleBookAppointment parseDate addOutcome st fx =
      (st, fx.alert "Please select a doctor and choose a date/time.") := by
  simp [handleBookAppointment, h]

theorem handleBookAppointment_invalid (parseDate : String → Option Int)
    (addOutcome : Except String String) (st : PatientState) (fx : Effects)
    (hd : st.selectedDoctorId ≠ "") (ht : st.dateTime ≠ "")
    (hp : parseDate st.dateTime = none) :
    handleBookAppointment parseDate addOutcome st fx =
      (st, bookingFailed fx
        "Invalid date/time format. Please ensure it is correctly selected.") := by
  simp [handleBookAppointment, hd, ht, hp]

theorem handleBookAppointment_rejected (parseDate : String → Option Int)
    (st : PatientState) (fx : Effects) (ms : Int) (message : String)
    (hd : st.selectedDoctorId ≠ "") (ht : st.dateTime ≠ "")
    (hp : parseDate st.dateTime = some ms) :
    handleBookAppointment parseDate (.error message) st fx =
      (st, bookingFailed fx message) := by
  simp [handleBookAppointment, hd, ht, hp]

/-- C1: with a selected doctor, a non-empty date/time string that parses to the instant `ms`
and an `addDoc` call that resolves, `handleBookAppointment` appends exactly one document to
the `appointments` collection and touches no other collection; the document has the four
fields `doctorId` (the selected doctor), `patientId` (the `userId` cell, the `uid` of the
signed-in user), `dateTime` (the parsed instant) and `notes` (the entered notes) and no
other field. -/
theorem C1_booking_inserts_one_appointment (parseDate : String → Option Int)
    (st : PatientState) (fx : Effects) (ms : Int) (newId : String)
    (hd : st.selectedDoctorId ≠ "") (ht : st.dateTime ≠ "")
    (hp : parseDate st.dateTime = some ms) :
    ∃ document : Fields,
      (handleBookAppointment parseDate (.ok newId) st fx).2.store "appointments" =
        fx.store "appointments" ++ [(newId, document)] ∧
      (∀ coll, coll ≠ "appointments" →
        (handleBookAppointment parseDate (.ok newId) st fx).2.store coll = fx.store coll) ∧
      document "doctorId" = some (.str st.selectedDoctorId) ∧
      document "patientId" = some (idValue st.userId) ∧
      (∀ uid, st.userId = some uid → document "patientId" = some (.str uid)) ∧
      document "dateTime" = some (.date ms) ∧
      document "notes" = some (.str st.notes) ∧
      (∀ key, key ≠ "doctorId" → key ≠ "patientId" → key ≠ "dateTime" → key ≠ "notes" →
        document key = none) := by
  refine ⟨appointmentDoc st ms, ?_, ?_, appointmentDoc_doctorId st ms,
    appointmentDoc_patientId st ms, ?_, appointmentDoc_dateTime st ms,
    appointmentDoc_notes st ms, appointmentDoc_other st ms⟩
  · rw [handleBookAppointment_ok parseDate st fx ms newId hd ht hp]
    simp [addDoc]
  · intro coll hc
    rw [handleBookAppointment_ok parseDate st fx ms newId hd ht hp]
    simp [addDoc, hc]
  · intro uid hu
    rw [appointmentDoc_patientId, hu]
    rfl

/-- C2: with an empty selected doctor or an empty date/time string, whatever the parser, the
store outcome and the other cells are, `handleBookAppointment` alerts the missing-selection
message and leaves the store as it was. -/
theorem C2_missing_selection_no_insert (parseDate : String → Option Int)
    (addOutcome : Except String String) (st : PatientState) (fx : Effects)
    (h : st.selectedDoctorId = "" ∨ st.dateTime = "") :
    (handleBookAppointment parseDate addOutcome st fx).2.store = fx.store ∧
    (handleBookAppointment parseDate addOutcome st fx).2.alerts =
      fx.alerts ++ ["Please select a doctor and choose a date/time."] := by
  rw [handleBookAppointment_missing parseDate addOutcome st fx h]
  exact ⟨rfl, rfl⟩

/-- C3: with a selected doctor and a non-empty date/time string that does not parse,
`handleBookAppointment` alerts the invalid date/time error and leaves the store as it was,
whatever the store would have answered. -/
theorem C3_invalid_date_no_insert (parseDate : String → Option Int)
    (addOutcome : Except String String) (st : PatientState) (fx : Effects)
    (hd : st.selectedDoctorId ≠ "") (ht : st.dateTime ≠ "")
    (hp : parseDate st.dateTime = none) :
    (handleBookAppointment parseDate addOutcome st fx).2.store = fx.store ∧
    (handleBookAppointment parseDate addOutcome st fx).2.alerts =
      fx.alerts ++ ["Error booking appointment: " ++
        "Invalid date/time format. Please ensure it is correctly selected."] := by
  rw [handleBookAppointment_invalid parseDate addOutcome st fx hd ht hp]
  exact ⟨rfl, rfl⟩

/-- Witness of C1 at the booking of `sampleBooking`, stored under the id `a1`. -/
theorem C1_booking_inserts_one_appointment_witness :
    sampleBooking.selectedDoctorId ≠ "" ∧ sampleBooking.dateTime ≠ "" ∧
    sampleParseDate sampleBooking.dateTime = some 1735725600000 ∧
    ∃ document : Fields,
      (handleBookAppointment sampleParseDate (.ok "a1") sampleBooking noEffects).2.store
        "appointments" = [("a1", document)] ∧
      document "doctorId" = some (.str "d1") ∧
      document "patientId" = some (.str "p1") ∧
      document "dateTime" = some (.date 1735725600000) ∧
      document "notes" = some (.str "checkup") := by
  have hd : sampleBooking.selectedDoctorId ≠ "" := by decide
  have ht : sampleBooking.dateTime ≠ "" := by decide
  have hp : sampleParseDate sampleBooking.dateTime = some 1735725600000 := by decide
  obtain ⟨document, h1, _, h3, _, h5, h6, h7, _⟩ :=
    C1_booking_inserts_one_appointment sampleParseDate sampleBooking noEffects
      1735725600000 "a1" hd ht hp
  exact ⟨hd, ht, hp, document, h1, h3, h5 "p1" rfl, h6, h7⟩

/-- Witness of C2 at the booking form with no doctor selected. -/
theorem C2_missing_selection_no_insert_witness :
    (PatientDashboard.init.selectedDoctorId = "" ∨ PatientDashboard.init.dateTime = "") ∧
    (handleBookAppointment sampleParseDate (.ok "a1") PatientDashboard.init noEffects).2.store =
      noEffects.store ∧
    (handleBookAppointment sampleParseDate (.ok "a1") PatientDashboard.init noEffects).2.alerts =
      noEffects.alerts ++ ["Please select a doctor and choose a date/time."] :=
  ⟨Or.inl rfl,
   C2_missing_selection_no_insert sampleParseDate (.ok "a1") PatientDashboard.init noEffects
     (Or.inl rfl)⟩

/-- Witness of C3 at the date/time string `not-a-date`. -/
theorem C3_invalid_date_no_insert_witness :
    ({ sampleBooking with dateTime := "not-a-date" } : PatientState).selectedDoctorId ≠ "" ∧
    ({ sampleBooking with dateTime := "not-a-date" } : PatientState).dateTime ≠ "" ∧
    sampleParseDate ({ sampleBooking with dateTime := "not-a-date" } : PatientState).dateTime
      = none ∧
    (handleBookAppointment sampleParseDate (.ok "a1")
      { sampleBooking with dateTime := "not-a-date" } noEffects).2.store = noEffects.store ∧
    (handleBookAppointment sampleParseDate (.ok "a1")
      { sampleBooking with dateTime := "not-a-date" } noEffects).2.alerts =
      noEffects.alerts ++ ["Error booking appointment: " ++
        "Invalid date/time format. Please ensure it is correctly selected."] :=
  ⟨by decide, by decide, by decide,
   C3_invalid_date_no_insert sampleParseDate (.ok "a1")
     { sampleBooking with dateTime := "not-a-date" } noEffects
     (by decide) (by decide) (by decide)⟩

/-- C8: whatever the parser, the store outcome and the state are, `handleBookAppointment`
leaves `showAppointment` as it was; when the insert succeeds the three form cells are reset
to the empty string; when the call fails (missing selection, invalid date/time, or the store
rejecting the insert) the three form cells keep what the user entered. -/
theorem C8_booking_form_frame (parseDate : String → Option Int)
    (addOutcome : Except String String) (st : PatientState) (fx : Effects) :
    (handleBookAppointment parseDate addOutcome st fx).1.showAppointment = st.showAppointment ∧
    (∀ ms newId, st.selectedDoctorId ≠ "" → st.dateTime ≠ "" →
      parseDate st.dateTime = some ms → addOutcome = .ok newId →
      (handleBookAppointment parseDate addOutcome st fx).1.selectedDoctorId = "" ∧
      (handleBookAppointment parseDate addOutcome st fx).1.dateTime = "" ∧
      (handleBookAppointment parseDate addOutcome st fx).1.notes = "") ∧
    ((st.selectedDoctorId = "" ∨ st.dateTime = "" ∨ parseDate st.dateTime = none ∨
        (∃ message, addOutcome = .error message)) →
      (handleBookAppointment parseDate addOutcome st fx).1.selectedDoctorId =
        st.selectedDoctorId ∧
      (handleBookAppointment parseDate addOutcome st fx).1.dateTime = st.dateTime ∧
      (handleBookAppointment parseDate addOutcome st fx).1.notes = st.notes) := by
  refine ⟨?_, ?_, ?_⟩
  · unfold handleBookAppointment
    split
    · rfl
    · split
      · rfl
      · split <;> rfl
  · intro ms newId hd ht hp ho
    subst ho
    rw [handleBookAppointment_ok parseDate st fx ms newId hd ht hp]
    exact ⟨rfl, rfl, rfl⟩
  · intro h
    unfold handleBookAppointment
    split
    · exact ⟨rfl, rfl, rfl⟩
    · split
      · exact ⟨rfl, rfl, rfl⟩
      · split
        · exact ⟨rfl, rfl, rfl⟩
        · rename_i hne _ _ hparse _ _
          rcases h with h | h | h | ⟨message, h⟩
          · exact absurd (Or.inl h) hne
          · exact absurd (Or.inr h) hne
          · rw [h] at hparse; cases hparse
          · cases h

/-- Witness of C8: the booking of `sampleBooking` succeeds and clears the form, the same
form is kept when the store rejects the insert, and the form stays visible in both. -/
theorem C8_booking_form_frame_witness :
    (handleBookAppointment sampleParseDate (.ok "a1") sampleBooking noEffects).1.showAppointment
      = true ∧
    (handleBookAppointment sampleParseDate (.ok "a1") sampleBooking noEffects).1.selectedDoctorId
      = "" ∧
    (handleBookAppointment sampleParseDate (.ok "a1") sampleBooking noEffects).1.dateTime = "" ∧
    (handleBookAppointment sampleParseDate (.ok "a1") sampleBooking noEffects).1.notes = "" ∧
    (handleBookAppointment sampleParseDate (.error "offline") sampleBooking
      noEffects).1.showAppointment = true ∧
    (handleBookAppointment sampleParseDate (.error "offline") sampleBooking
      noEffects).1.selectedDoctorId = "d1" ∧
    (handleBookAppointment sampleParseDate (.error "offline") sampleBooking
      noEffects).1.dateTime = "2025-01-01T10:00" ∧
    (handleBookAppointment sampleParseDate (.error "offline") sampleBooking
      noEffects).1.notes = "checkup" := by
  have hok := C8_booking_form_frame sampleParseDate (.ok "a1") sampleBooking noEffects
  have herr := C8_booking_form_frame sampleParseDate (.error "offline") sampleBooking noEffects
  obtain ⟨c1, c2, c3⟩ := hok.2.1 1735725600000 "a1" (by decide) (by decide) (by decide) rfl
  obtain ⟨e1, e2, e3⟩ := herr.2.2 (Or.inr (Or.inr (Or.inr ⟨"offline", rfl⟩)))
  exact ⟨hok.1, c1, c2, c3, herr.1, e1, e2, e3⟩

end Booking

/-! ## The schedule -/

section Schedule

open DoctorDashboard

theorem handleSaveSlot_empty (st : DoctorState) (fx : Effects)
    (h : st.startTime = "" ∨ st.endTime = "") :
    handleSaveSlot st fx = (st, fx.alert "Please select start and end time.") := by
  simp [handleSaveSlot, h]

theorem handleSaveSlot_filled (st : DoctorState) (fx : Effects)
    (hs : st.startTime ≠ "") (he : st.endTime ≠ "") :
    handleSaveSlot st fx =
      (clearSlotForm { st with schedule := st.schedule ++
          [{ startTime := st.startTime, endTime := st.endTime, available := st.available }] },
       fx.alert "Slot added successfully!") := by
  simp [handleSaveSlot, hs, he]

theorem addSlot_schedule (slot : Slot) (p : DoctorState × Effects)
    (hs : slot.startTime ≠ "") (he : slot.endTime ≠ "") :
    (addSlot slot p).1.schedule = p.1.schedule ++ [slot] := by
  unfold addSlot
  rw [handleSaveSlot_filled _ _ hs he]
  rfl

theorem addSlots_schedule (slots : List Slot) :
    ∀ p : DoctorState × Effects,
      (∀ slot ∈ slots, slot.startTime ≠ "" ∧ slot.endTime ≠ "") →
      (addSlots slots p).1.schedule = p.1.schedule ++ slots := by
  induction slots with
  | nil => intro p _; simp [addSlots]
  | cons slot rest ih =>
      intro p h
      have hslot := h slot (List.mem_cons_self slot rest)
      have hrest : ∀ x ∈ rest, x.startTime ≠ "" ∧ x.endTime ≠ "" :=
        fun x hx => h x (List.mem_cons_of_mem slot hx)
      have step : addSlots (slot :: rest) p = addSlots rest (addSlot slot p) := rfl
      rw [step, ih (addSlot slot p) hrest, addSlot_schedule slot p hslot.1 hslot.2]
      simp

/-- C4: whatever the schedule and the availability flag are, `handleSaveSlot` with an empty
`startTime` or an empty `endTime` appends nothing: the schedule after the call is the
schedule before it, entry for entry and of the same length, and the user is told why. -/
theorem C4_empty_time_rejected (st : DoctorState) (fx : Effects)
    (h : st.startTime = "" ∨ st.endTime = "") :
    (handleSaveSlot st fx).1.schedule = st.schedule ∧
    (handleSaveSlot st fx).1.schedule.length = st.schedule.length ∧
    (handleSaveSlot st fx).2.alerts = fx.alerts ++ ["Please select start and end time."] := by
  rw [handleSaveSlot_empty st fx h]
  exact ⟨rfl, rfl, rfl⟩

/-- Witness of C4: `addSlot("", "17:00", false)` on a schedule of one slot. -/
theorem C4_empty_time_rejected_witness :
    (({ DoctorDashboard.init with
          schedule := [{ startTime := "09:00", endTime := "12:00", available := true }],
          startTime := "", endTime := "17:00" } : DoctorState).startTime = "" ∨
     ({ DoctorDashboard.init with
          schedule := [{ startTime := "09:00", endTime := "12:00", available := true }],
          startTime := "", endTime := "17:00" } : DoctorState).endTime = "") ∧
    (handleSaveSlot
      { DoctorDashboard.init with
          schedule := [{ startTime := "09:00", endTime := "12:00", available := true }],
          startTime := "", endTime := "17:00" } noEffects).1.schedule =
      [{ startTime := "09:00", endTime := "12:00", available := true }] :=
  ⟨Or.inl rfl,
   (C4_empty_time_rejected
      { DoctorDashboard.init with
          schedule := [{ startTime := "09:00", endTime := "12:00", available := true }],
          startTime := "", endTime := "17:00" } noEffects (Or.inl rfl)).1⟩

/-- C5: with non-empty `startTime` and `endTime`, `handleSaveSlot` yields the schedule it
started from followed by exactly one entry, the slot made of the three inputs; and a run of
accepted `addSlot` actions, each on the state the previous one left, yields the starting
schedule followed by the added slots in the order they were added. -/
theorem C5_slots_appended_in_order (st : DoctorState) (fx : Effects) :
    (st.startTime ≠ "" → st.endTime ≠ "" →
      (handleSaveSlot st fx).1.schedule = st.schedule ++
        [{ startTime := st.startTime, endTime := st.endTime, available := st.available }]) ∧
    (∀ slots : List Slot, (∀ slot ∈ slots, slot.startTime ≠ "" ∧ slot.endTime ≠ "") →
      (addSlots slots (st, fx)).1.schedule = st.schedule ++ slots) := by
  constructor
  · intro hs he
    rw [handleSaveSlot_filled st fx hs he]
    rfl
  · intro slots h
    exact addSlots_schedule slots (st, fx) h

/-- Witness of C5: `addSlot("09:00", "17:00", true)` on the empty schedule, and two slots
added one after the other. -/
theorem C5_slots_appended_in_order_witness :
    (handleSaveSlot
      { DoctorDashboard.init with startTime := "09:00", endTime := "17:00", available := true }
      noEffects).1.schedule = [{ startTime := "09:00", endTime := "17:00", available := true }] ∧
    (addSlots [{ startTime := "09:00", endTime := "17:00", available := true },
               { startTime := "08:00", endTime := "08:30", available := false }]
      (DoctorDashboard.init, noEffects)).1.schedule =
      [{ startTime := "09:00", endTime := "17:00", available := true },
       { startTime := "08:00", endTime := "08:30", available := false }] :=
  ⟨(C5_slots_appended_in_order
      { DoctorDashboard.init with startTime := "09:00", endTime := "17:00", available := true }
      noEffects).1 (by decide) (by decide),
   (C5_slots_appended_in_order DoctorDashboard.init noEffects).2
      [{ startTime := "09:00", endTime := "17:00", available := true },
       { startTime := "08:00", endTime := "08:30", available := false }]
      (by decide)⟩

end Schedule

/-! ## Profiles -/

section Profiles

theorem mergeFields_empty (f : Fields) : mergeFields emptyFields f = f := by
  funext key
  unfold mergeFields emptyFields
  cases f key <;> rfl

theorem mergeFields_idem (old f : Fields) :
    mergeFields (mergeFields old f) f = mergeFields old f := by
  funext key
  unfold mergeFields
  cases f key <;> rfl

theorem mergeFields_self (f : Fields) : mergeFields f f = f := by
  funext key
  unfold mergeFields
  cases f key <;> rfl

theorem find_upsertDoc (id : String) (f : Fields) (c : Collection) :
    ((upsertDoc id f c).find? (fun d => d.1 == id)).map (fun d => d.2) =
      some (mergeFields
        (((c.find? (fun d => d.1 == id)).map (fun d => d.2)).getD emptyFields) f) := by
  induction c with
  | nil => simp [upsertDoc, mergeFields_empty]
  | cons hd rest ih =>
      obtain ⟨i, d⟩ := hd
      by_cases h : i = id
      · simp [upsertDoc, h]
      · simp only [upsertDoc, h, if_false]
        have hb : (i == id) = false := by simpa using h
        simp only [List.find?_cons, hb]
        exact ih

theorem upsertDoc_idem (id : String) (f : Fields) (c : Collection) :
    upsertDoc id f (upsertDoc id f c) = upsertDoc id f c := by
  induction c with
  | nil => simp [upsertDoc, mergeFields_self]
  | cons hd rest ih =>
      obtain ⟨i, d⟩ := hd
      by_cases h : i = id
      · simp [upsertDoc, h, mergeFields_idem]
      · simp [upsertDoc, h, ih]

theorem getDoc_setDocMerge (s : Store) (coll id : String) (f : Fields) :
    getDoc (setDocMerge s coll id f) coll id =
      some (mergeFields ((getDoc s coll id).getD emptyFields) f) := by
  unfold getDoc setDocMerge
  simp only [if_true]
  exact find_upsertDoc id f (s coll)

theorem setDocMerge_idem (s : Store) (coll id : String) (f : Fields) :
    setDocMerge (setDocMerge s coll id f) coll id f = setDocMerge s coll id f := by
  funext c
  unfold setDocMerge
  by_cases h : c = coll
  · simp [h, upsertDoc_idem]
  · simp [h]

theorem jsOr_str (n : String) : jsOr (some (.str n)) (.str "") = .str n := by
  unfold jsOr JsVal.truthy
  by_cases h : n = ""
  · simp [h]
  · simp [h]

theorem mergeFields_bind (old : Option Fields) (f : Fields) (key : String)
    (h : f key = none) :
    mergeFields (old.getD emptyFields) f key = old.bind (fun data => data key) := by
  unfold mergeFields
  rw [h]
  cases old <;> rfl

theorem doctor_save (st : DoctorState) (fx : Effects) (uid : String)
    (hu : st.userId = some uid) :
    DoctorDashboard.handleSaveDetails st fx =
      some ({ st with isEditing := false },
            { fx with
              store := setDocMerge fx.store "doctors" uid
                (objectOf [("name", st.name), ("specialization", st.specialization)]),
              alerts := fx.alerts ++ ["Doctor details saved successfully."] }) := by
  simp [DoctorDashboard.handleSaveDetails, hu]

theorem patient_save (st : PatientState) (fx : Effects) (uid : String)
    (hu : st.userId = some uid) :
    PatientDashboard.handleSaveDetails st fx =
      some ({ st with isEditing := false },
            { fx with
              store := setDocMerge fx.store "patients" uid
                (objectOf [("name", st.name), ("contactDetails", st.contactDetails),
                  ("medicalHistory", st.medicalHistory)]),
              alerts := fx.alerts ++ ["Patient details saved successfully."] }) := by
  simp [PatientDashboard.handleSaveDetails, hu]

theorem doctor_load (uid : String) (st : DoctorState) (fx : Effects) (data : Fields)
    (h : getDoc fx.store "doctors" uid = some data) :
    DoctorDashboard.fetchDoctorDetails uid st fx =
      ({ st with doctorDetails := data,
                 name := jsOr (data "name") (.str ""),
                 specialization := jsOr (data "specialization") (.str "") }, fx) := by
  simp [DoctorDashboard.fetchDoctorDetails, h]

theorem patient_load (uid : String) (st : PatientState) (fx : Effects) (data : Fields)
    (h : getDoc fx.store "patients" uid = some data) :
    PatientDashboard.fetchPatientDetails uid st fx =
      ({ st with patientDetails := data,
                 name := jsOr (data "name") (.str ""),
                 contactDetails := jsOr (data "contactDetails") (.str ""),
                 medicalHistory := jsOr (data "medicalHistory") (.str "") }, fx) := by
  simp [PatientDashboard.fetchPatientDetails, h]

/-- The doctor half of the save-then-load property. -/
theorem doctor_save_then_load (st other : DoctorState) (fx : Effects) (uid n sp : String)
    (hu : st.userId = some uid) (hn : st.name = .str n) (hs : st.specialization = .str sp) :
    ∃ st1 fx1, DoctorDashboard.handleSaveDetails st fx = some (st1, fx1) ∧
      (DoctorDashboard.fetchDoctorDetails uid other fx1).1.name = .str n ∧
      (DoctorDashboard.fetchDoctorDetails uid other fx1).1.specialization = .str sp ∧
      (∀ key, key ≠ "name" → key ≠ "specialization" →
        (getDoc fx1.store "doctors" uid).bind (fun data => data key) =
          (getDoc fx.store "doctors" uid).bind (fun data => data key)) ∧
      ∃ st2 fx2, DoctorDashboard.handleSaveDetails st1 fx1 = some (st2, fx2) ∧
        fx2.store = fx1.store := by
  refine ⟨_, _, doctor_save st fx uid hu, ?_, ?_, ?_, ?_⟩
  · rw [doctor_load uid other _ _ (getDoc_setDocMerge fx.store "doctors" uid _)]
    simp [mergeFields, objectOf, emptyFields, hn, jsOr_str]
  · rw [doctor_load uid other _ _ (getDoc_setDocMerge fx.store "doctors" uid _)]
    simp [mergeFields, objectOf, emptyFields, hs, jsOr_str]
  · intro key h1 h2
    simp only [getDoc_setDocMerge, Option.some_bind]
    apply mergeFields_bind
    simp [objectOf, emptyFields, h1, h2]
  · refine ⟨_, _, doctor_save _ _ uid hu, ?_⟩
    exact setDocMerge_idem fx.store "doctors" uid _

/-- The client half of the save-then-load property. -/
theorem patient_save_then_load (st other : PatientState) (fx : Effects)
    (uid n c m : String)
    (hu : st.userId = some uid) (hn : st.name = .str n) (hc : st.contactDetails = .str c)
    (hm : st.medicalHistory = .str m) :
    ∃ st1 fx1, PatientDashboard.handleSaveDetails st fx = some (st1, fx1) ∧
      (PatientDashboard.fetchPatientDetails uid other fx1).1.name = .str n ∧
      (PatientDashboard.fetchPatientDetails uid other fx1).1.contactDetails = .str c ∧
      (PatientDashboard.fetchPatientDetails uid other fx1).1.medicalHistory = .str m ∧
      (∀ key, key ≠ "name" → key ≠ "contactDetails" → key ≠ "medicalHistory" →
        (getDoc fx1.store "patients" uid).bind (fun data => data key) =
          (getDoc fx.store "patients" uid).bind (fun data => data key)) ∧
      ∃ st2 fx2, PatientDashboard.handleSaveDetails st1 fx1 = some (st2, fx2) ∧
        fx2.store = fx1.store := by
  refine ⟨_, _, patient_save st fx uid hu, ?_, ?_, ?_, ?_, ?_⟩
  · rw [patient_load uid other _ _ (getDoc_setDocMerge fx.store "patients" uid _)]
    simp [mergeFields, objectOf, emptyFields, hn, jsOr_str]
  · rw [patient_load uid other _ _ (getDoc_setDocMerge fx.store "patients" uid _)]
    simp [mergeFields, objectOf, emptyFields, hc, jsOr_str]
  · rw [patient_load uid other _ _ (getDoc_setDocMerge fx.store "patients" uid _)]
    simp [mergeFields, objectOf, emptyFields, hm, jsOr_str]
  · intro key h1 h2 h3
    simp only [getDoc_setDocMerge, Option.some_bind]
    apply mergeFields_bind
    simp [objectOf, emptyFields, h1, h2, h3]
  · refine ⟨_, _, patient_save _ _ uid hu, ?_⟩
    exact setDocMerge_idem fx.store "patients" uid _

/-- C6: with the store a map from identity to a field record and `setDoc` with
`merge: true` an upsert-merge, for every signed-in identity, every stored content and every
string values of the profile cells (empty strings included), `handleSaveDetails` succeeds
and a following `fetchDoctorDetails` / `fetchPatientDetails`, run from any state of the
cells, sets the cells to exactly the saved values; every stored field of the profile that is
not one of the saved ones keeps its previous value (absent stays absent); and saving again
leaves the store as after the first save. Stated for both dashboards. -/
theorem C6_profile_save_then_load :
    (∀ (st other : DoctorState) (fx : Effects) (uid n sp : String),
      st.userId = some uid → st.name = .str n → st.specialization = .str sp →
      ∃ st1 fx1, DoctorDashboard.handleSaveDetails st fx = some (st1, fx1) ∧
        (DoctorDashboard.fetchDoctorDetails uid other fx1).1.name = .str n ∧
        (DoctorDashboard.fetchDoctorDetails uid other fx1).1.specialization = .str sp ∧
        (∀ key, key ≠ "name" → key ≠ "specialization" →
          (getDoc fx1.store "doctors" uid).bind (fun data => data key) =
            (getDoc fx.store "doctors" uid).bind (fun data => data key)) ∧
        ∃ st2 fx2, DoctorDashboard.handleSaveDetails st1 fx1 = some (st2, fx2) ∧
          fx2.store = fx1.store) ∧
    (∀ (st other : PatientState) (fx : Effects) (uid n c m : String),
      st.userId = some uid → st.name = .str n → st.contactDetails = .str c →
      st.medicalHistory = .str m →
      ∃ st1 fx1, PatientDashboard.handleSaveDetails st fx = some (st1, fx1) ∧
        (PatientDashboard.fetchPatientDetails uid other fx1).1.name = .str n ∧
        (PatientDashboard.fetchPatientDetails uid other fx1).1.contactDetails = .str c ∧
        (PatientDashboard.fetchPatientDetails uid other fx1).1.medicalHistory = .str m ∧
        (∀ key, key ≠ "name" → key ≠ "contactDetails" → key ≠ "medicalHistory" →
          (getDoc fx1.store "patients" uid).bind (fun data => data key) =
            (getDoc fx.store "patients" uid).bind (fun data => data key)) ∧
        ∃ st2 fx2, PatientDashboard.handleSaveDetails st1 fx1 = some (st2, fx2) ∧
          fx2.store = fx1.store) :=
  ⟨doctor_save_then_load, patient_save_then_load⟩

/-- Witness of C6: doctor `d1` and client `p1` save over the profiles of `sampleProfiles`;
the load returns the saved strings and the stored `role` field is kept. -/
theorem C6_profile_save_then_load_witness :
    (∃ st1 fx1, DoctorDashboard.handleSaveDetails sampleDoctor sampleProfiles = some (st1, fx1) ∧
      (DoctorDashboard.fetchDoctorDetails "d1" DoctorDashboard.init fx1).1.name = .str "Ann" ∧
      (DoctorDashboard.fetchDoctorDetails "d1" DoctorDashboard.init fx1).1.specialization
        = .str "" ∧
      (getDoc fx1.store "doctors" "d1").bind (fun data => data "role") =
        some (.str "doctor")) ∧
    (∃ st1 fx1,
      PatientDashboard.handleSaveDetails samplePatient sampleProfiles = some (st1, fx1) ∧
      (PatientDashboard.fetchPatientDetails "p1" PatientDashboard.init fx1).1.name
        = .str "Bob" ∧
      (PatientDashboard.fetchPatientDetails "p1" PatientDashboard.init fx1).1.medicalHistory
        = .str "" ∧
      (getDoc fx1.store "patients" "p1").bind (fun data => data "role") =
        some (.str "patient")) := by
  constructor
  · obtain ⟨st1, fx1, h0, h1, h2, h3, _⟩ :=
      C6_profile_save_then_load.1 sampleDoctor DoctorDashboard.init sampleProfiles
        "d1" "Ann" "" rfl rfl rfl
    refine ⟨st1, fx1, h0, h1, h2, ?_⟩
    rw [h3 "role" (by decide) (by decide)]
    simp [getDoc, sampleProfiles, noEffects, objectOf, emptyFields]
  · obtain ⟨st1, fx1, h0, h1, _, h2, h3, _⟩ :=
      C6_profile_save_then_load.2 samplePatient PatientDashboard.init sampleProfiles
        "p1" "Bob" "bob@example.org" "" rfl rfl rfl rfl
    refine ⟨st1, fx1, h0, h1, h2, ?_⟩
    rw [h3 "role" (by decide) (by decide) (by decide)]
    simp [getDoc, sampleProfiles, noEffects, objectOf, emptyFields]

end Profiles

/-! ## The appointment list of the doctor dashboard -/

section Appointments

open DoctorDashboard

theorem snapshotEntry_field (d : String × Fields) (key : String) (h : key ≠ "id") :
    snapshotEntry d key = d.2 key := by
  unfold snapshotEntry
  cases d.2 key <;> simp [h]

theorem snapshotEntry_id (d : String × Fields) (h : d.2 "id" = none) :
    snapshotEntry d "id" = some (.str d.1) := by
  unfold snapshotEntry
  simp [h]

theorem queryWhere_perm (s : Store) (coll field : String) (v : JsVal) :
    (queryWhere s coll field v).Perm
      ((s coll).filter (fun d => decide (d.2 field = some v))) :=
  List.perm_insertionSort _ _

theorem mem_queryWhere (s : Store) (coll field : String) (v : JsVal) (doc : String × Fields) :
    doc ∈ queryWhere s coll field v ↔ doc ∈ s coll ∧ doc.2 field = some v := by
  rw [(queryWhere_perm s coll field v).mem_iff]
  simp [List.mem_filter]

theorem snapshotUpdate_appointments (d : String) (s : Store) (st : DoctorState) :
    (snapshotUpdate d s st).appointments =
      (queryWhere s "appointments" "doctorId" (.str d)).map snapshotEntry := rfl

theorem mem_snapshotUpdate (d : String) (s : Store) (st : DoctorState) (e : Fields) :
    e ∈ (snapshotUpdate d s st).appointments ↔
      ∃ doc ∈ s "appointments", doc.2 "doctorId" = some (.str d) ∧ snapshotEntry doc = e := by
  rw [snapshotUpdate_appointments]
  simp only [List.mem_map, mem_queryWhere]
  constructor
  · rintro ⟨doc, ⟨hm, hd⟩, he⟩
    exact ⟨doc, hm, hd, he⟩
  · rintro ⟨doc, hm, hd, he⟩
    exact ⟨doc, ⟨hm, hd⟩, he⟩

theorem appointmentDoc_no_id (pst : PatientState) (ms : Int) :
    PatientDashboard.appointmentDoc pst ms "id" = none :=
  appointmentDoc_other pst ms "id" (by decide) (by decide) (by decide) (by decide)

/-- Booking keeps the storage id out of the data: whatever its inputs and its outcome,
`handleBookAppointment` leaves an `appointments` collection of documents without `id` field
in that shape. -/
theorem handleBookAppointment_storageIdsOnly (parseDate : String → Option Int)
    (addOutcome : Except String String) (pst : PatientState) (fx : Effects)
    (h : storageIdsOnly fx.store) :
    storageIdsOnly
      (PatientDashboard.handleBookAppointment parseDate addOutcome pst fx).2.store := by
  unfold PatientDashboard.handleBookAppointment
  split
  · exact h
  · split
    · exact h
    · split
      · exact h
      · rename_i ms _ _ _
        intro doc hdoc
        simp only [addDoc, if_true, List.mem_append, List.mem_singleton] at hdoc
        rcases hdoc with hdoc | hdoc
        · exact h doc hdoc
        · subst hdoc
          exact appointmentDoc_no_id pst ms

theorem booked_entry_listed (parseDate : String → Option Int) (pst : PatientState)
    (fx : Effects) (ms : Int) (newId d : String) (st : DoctorState)
    (hsel : pst.selectedDoctorId = d) (hd : d ≠ "") (ht : pst.dateTime ≠ "")
    (hp : parseDate pst.dateTime = some ms) :
    ∃ e ∈ (snapshotUpdate d
        (PatientDashboard.handleBookAppointment parseDate (.ok newId) pst fx).2.store
        st).appointments,
      e "id" = some (.str newId) ∧ e "doctorId" = some (.str d) ∧
      e "patientId" = some (idValue pst.userId) ∧ e "dateTime" = some (.date ms) ∧
      e "notes" = some (.str pst.notes) := by
  have hd2 : pst.selectedDoctorId ≠ "" := by rw [hsel]; exact hd
  refine ⟨snapshotEntry (newId, PatientDashboard.appointmentDoc pst ms), ?_, ?_, ?_, ?_, ?_, ?_⟩
  · rw [mem_snapshotUpdate]
    refine ⟨(newId, PatientDashboard.appointmentDoc pst ms), ?_, ?_, rfl⟩
    · rw [handleBookAppointment_ok parseDate pst fx ms newId hd2 ht hp]
      simp [addDoc]
    · show PatientDashboard.appointmentDoc pst ms "doctorId" = some (.str d)
      rw [appointmentDoc_doctorId, hsel]
  · apply snapshotEntry_id
    exact appointmentDoc_no_id pst ms
  · rw [snapshotEntry_field _ _ (by decide)]
    show PatientDashboard.appointmentDoc pst ms "doctorId" = some (.str d)
    rw [appointmentDoc_doctorId, hsel]
  · rw [snapshotEntry_field _ _ (by decide)]
    exact appointmentDoc_patientId pst ms
  · rw [snapshotEntry_field _ _ (by decide)]
    exact appointmentDoc_dateTime pst ms
  · rw [snapshotEntry_field _ _ (by decide)]
    exact appointmentDoc_notes pst ms

/-- C7: for every content of the `appointments` collection (appointment documents, whose id
is their storage id) and every doctor `d`, whatever the list held before, a snapshot update
of the query of `fetchAppointments` sets the appointment list to exactly the entries of the
documents whose `doctorId` equals `d`, one entry for each such document and no other: every
listed entry comes from such a document and carries its storage id under `id` and every
field of its data, every such document has its entry in the list, and every listed entry has
`doctorId` equal to `d`. An appointment booked for `d` by `handleBookAppointment` is listed,
under its generated id and with its four fields, by a snapshot update on the store the
booking leaves, which is again a collection of appointment documents. -/
theorem C7_snapshot_lists_own_appointments (s : Store) (d : String) (st : DoctorState)
    (hs : storageIdsOnly s) :
    (snapshotUpdate d s st).appointments =
      (queryWhere s "appointments" "doctorId" (.str d)).map snapshotEntry ∧
    (queryWhere s "appointments" "doctorId" (.str d)).Perm
      ((s "appointments").filter (fun doc => decide (doc.2 "doctorId" = some (.str d)))) ∧
    (∀ e ∈ (snapshotUpdate d s st).appointments,
      ∃ doc ∈ s "appointments", doc.2 "doctorId" = some (.str d) ∧
        e "id" = some (.str doc.1) ∧ ∀ key, key ≠ "id" → e key = doc.2 key) ∧
    (∀ doc ∈ s "appointments", doc.2 "doctorId" = some (.str d) →
      ∃ e ∈ (snapshotUpdate d s st).appointments,
        e "id" = some (.str doc.1) ∧ ∀ key, key ≠ "id" → e key = doc.2 key) ∧
    (∀ e ∈ (snapshotUpdate d s st).appointments, e "doctorId" = some (.str d)) ∧
    (∀ (parseDate : String → Option Int) (pst : PatientState) (fx : Effects) (ms : Int)
        (newId : String),
      fx.store = s → pst.selectedDoctorId = d → d ≠ "" → pst.dateTime ≠ "" →
      parseDate pst.dateTime = some ms →
      storageIdsOnly
        (PatientDashboard.handleBookAppointment parseDate (.ok newId) pst fx).2.store ∧
      ∃ e ∈ (snapshotUpdate d
          (PatientDashboard.handleBookAppointment parseDate (.ok newId) pst fx).2.store
          st).appointments,
        e "id" = some (.str newId) ∧ e "doctorId" = some (.str d) ∧
        e "patientId" = some (idValue pst.userId) ∧ e "dateTime" = some (.date ms) ∧
        e "notes" = some (.str pst.notes)) := by
  refine ⟨rfl, queryWhere_perm s _ _ _, ?_, ?_, ?_, ?_⟩
  · intro e he
    rw [mem_snapshotUpdate] at he
    obtain ⟨doc, hm, hd, rfl⟩ := he
    exact ⟨doc, hm, hd, snapshotEntry_id doc (hs doc hm), snapshotEntry_field doc⟩
  · intro doc hm hd
    refine ⟨snapshotEntry doc, ?_, snapshotEntry_id doc (hs doc hm), snapshotEntry_field doc⟩
    rw [mem_snapshotUpdate]
    exact ⟨doc, hm, hd, rfl⟩
  · intro e he
    rw [mem_snapshotUpdate] at he
    obtain ⟨doc, _, hd, rfl⟩ := he
    rw [snapshotEntry_field _ _ (by decide)]
    exact hd
  · intro parseDate pst fx ms newId hfx hsel hd ht hp
    refine ⟨handleBookAppointment_storageIdsOnly parseDate (.ok newId) pst fx ?_,
      booked_entry_listed parseDate pst fx ms newId d st hsel hd ht hp⟩
    rw [hfx]
    exact hs

/-- Witness of C7: on the empty store the booking of `sampleBooking` for doctor `d1`, stored
under `a1`, is listed by the next snapshot update of `d1`; on the store the booking leaves, a
snapshot update of doctor `d2` lists entries of `d2` only. -/
theorem C7_snapshot_lists_own_appointments_witness :
    storageIdsOnly noEffects.store ∧
    storageIdsOnly
      (PatientDashboard.handleBookAppointment sampleParseDate (.ok "a1") sampleBooking
        noEffects).2.store ∧
    (∃ e ∈ (snapshotUpdate "d1"
        (PatientDashboard.handleBookAppointment sampleParseDate (.ok "a1") sampleBooking
          noEffects).2.store DoctorDashboard.init).appointments,
      e "id" = some (.str "a1") ∧ e "doctorId" = some (.str "d1") ∧
      e "patientId" = some (idValue sampleBooking.userId) ∧
      e "dateTime" = some (.date 1735725600000) ∧
      e "notes" = some (.str sampleBooking.notes)) ∧
    (∀ e ∈ (snapshotUpdate "d2"
        (PatientDashboard.handleBookAppointment sampleParseDate (.ok "a1") sampleBooking
          noEffects).2.store DoctorDashboard.init).appointments,
      e "doctorId" = some (.str "d2")) := by
  have h0 : storageIdsOnly noEffects.store := by
    intro doc hdoc
    simp [noEffects] at hdoc
  have hbook := (C7_snapshot_lists_own_appointments noEffects.store "d1" DoctorDashboard.init
    h0).2.2.2.2.2 sampleParseDate sampleBooking noEffects 1735725600000 "a1" rfl
    (by decide) (by decide) (by decide) (by decide)
  exact ⟨h0, hbook.1, hbook.2,
    (C7_snapshot_lists_own_appointments
      (PatientDashboard.handleBookAppointment sampleParseDate (.ok "a1") sampleBooking
        noEffects).2.store "d2" DoctorDashboard.init hbook.1).2.2.2.2.1⟩

/-- C9 fails on the code: after the dashboard is mounted, the auth listener is called with
doctor `d1` and the view is torn down, the query listener of `fetchAppointments` is still
registered (only the auth listener was released), and a snapshot update delivered after the
teardown still runs its callback, which sets the appointment list from empty to the one
appointment booked in the meantime. -/
theorem C9_query_listener_survives_unmount :
    afterTeardown.2.subscriptions = [.appointmentsQuery "d1"] ∧
    afterTeardown.2.subscriptions ≠ [] ∧
    afterTeardown.1.appointments.length = 0 ∧
    (deliverSnapshots afterTeardown.1 bookedAfterTeardown).appointments.length = 1 ∧
    (deliverSnapshots afterTeardown.1 bookedAfterTeardown).appointments.map
      (fun e => e "id") = [some (.str "a1")] := by
  refine ⟨by decide, by decide, by decide, by decide, by decide⟩

end Appointments

/-! ## Editing the profile -/

section Editing

/-- C10, as stated, fails on both dashboards: after load, Edit, typing `Typed` into the name
input, Cancel and Edit again, the form is in editing mode and the name cell holds `Typed`,
while the last loaded profile (the `doctorDetails` / `patientDetails` cell, and the stored
document) has the name `Old`. -/
theorem C10_edit_after_cancel_keeps_edits :
    doctorEditCancelEdit.isEditing = true ∧
    doctorEditCancelEdit.name = .str "Typed" ∧
    doctorEditCancelEdit.doctorDetails "name" = some (.str "Old") ∧
    (getDoc sampleProfiles.store "doctors" "d1").bind (fun data => data "name") =
      some (.str "Old") ∧
    doctorEditCancelEdit.name ≠ jsOr (doctorEditCancelEdit.doctorDetails "name") (.str "") ∧
    patientEditCancelEdit.isEditing = true ∧
    patientEditCancelEdit.name = .str "Typed" ∧
    patientEditCancelEdit.patientDetails "name" = some (.str "Old") ∧
    patientEditCancelEdit.name ≠
      jsOr (patientEditCancelEdit.patientDetails "name") (.str "") := by
  refine ⟨by decide, by decide, by decide, by decide, by decide, by decide, by decide,
    by decide, by decide⟩

/-- C10, amended: on both dashboards, pressing Edit sets `isEditing` to true and changes
no other state cell. Hence in every state whose editable cells have not been changed since
the last load or save, the editable cells hold the last loaded or saved profile after the
toggle: in a state whose cells agree with the loaded profile kept in `doctorDetails` /
`patientDetails` they still agree with it, directly after a load they hold the loaded
profile (`data.field || ''`), and directly after a save they hold the saved values. -/
theorem C10_edit_keeps_current_fields :
    (∀ st : DoctorState,
      (DoctorDashboard.editDetails st).isEditing = true ∧
      (DoctorDashboard.editDetails st).name = st.name ∧
      (DoctorDashboard.editDetails st).specialization = st.specialization ∧
      (DoctorDashboard.editDetails st).doctorDetails = st.doctorDetails ∧
      (DoctorDashboard.editDetails st).schedule = st.schedule ∧
      (DoctorDashboard.editDetails st).appointments = st.appointments ∧
      (DoctorDashboard.editDetails st).activeSection = st.activeSection ∧
      (DoctorDashboard.editDetails st).startTime = st.startTime ∧
      (DoctorDashboard.editDetails st).endTime = st.endTime ∧
      (DoctorDashboard.editDetails st).available = st.available ∧
      (DoctorDashboard.editDetails st).userId = st.userId) ∧
    (∀ st : PatientState,
      (PatientDashboard.editDetails st).isEditing = true ∧
      (PatientDashboard.editDetails st).name = st.name ∧
      (PatientDashboard.editDetails st).contactDetails = st.contactDetails ∧
      (PatientDashboard.editDetails st).medicalHistory = st.medicalHistory ∧
      (PatientDashboard.editDetails st).patientDetails = st.patientDetails ∧
      (PatientDashboard.editDetails st).userId = st.userId ∧
      (PatientDashboard.editDetails st).doctors = st.doctors ∧
      (PatientDashboard.editDetails st).selectedDoctorId = st.selectedDoctorId ∧
      (PatientDashboard.editDetails st).dateTime = st.dateTime ∧
      (PatientDashboard.editDetails st).notes = st.notes ∧
      (PatientDashboard.editDetails st).showAppointment = st.showAppointment) ∧
    (∀ st : DoctorState,
      st.name = jsOr (st.doctorDetails "name") (.str "") →
      st.specialization = jsOr (st.doctorDetails "specialization") (.str "") →
      (DoctorDashboard.editDetails st).name =
        jsOr ((DoctorDashboard.editDetails st).doctorDetails "name") (.str "") ∧
      (DoctorDashboard.editDetails st).specialization =
        jsOr ((DoctorDashboard.editDetails st).doctorDetails "specialization") (.str "")) ∧
    (∀ st : PatientState,
      st.name = jsOr (st.patientDetails "name") (.str "") →
      st.contactDetails = jsOr (st.patientDetails "contactDetails") (.str "") →
      st.medicalHistory = jsOr (st.patientDetails "medicalHistory") (.str "") →
      (PatientDashboard.editDetails st).name =
        jsOr ((PatientDashboard.editDetails st).patientDetails "name") (.str "") ∧
      (PatientDashboard.editDetails st).contactDetails =
        jsOr ((PatientDashboard.editDetails st).patientDetails "contactDetails") (.str "") ∧
      (PatientDashboard.editDetails st).medicalHistory =
        jsOr ((PatientDashboard.editDetails st).patientDetails "medicalHistory") (.str "")) ∧
    (∀ (uid : String) (st : DoctorState) (fx : Effects) (data : Fields),
      getDoc fx.store "doctors" uid = some data →
      (DoctorDashboard.editDetails (DoctorDashboard.fetchDoctorDetails uid st fx).1).name =
        jsOr (data "name") (.str "") ∧
      (DoctorDashboard.editDetails
        (DoctorDashboard.fetchDoctorDetails uid st fx).1).specialization =
        jsOr (data "specialization") (.str "")) ∧
    (∀ (uid : String) (st : PatientState) (fx : Effects) (data : Fields),
      getDoc fx.store "patients" uid = some data →
      (PatientDashboard.editDetails (PatientDashboard.fetchPatientDetails uid st fx).1).name =
        jsOr (data "name") (.str "") ∧
      (PatientDashboard.editDetails
        (PatientDashboard.fetchPatientDetails uid st fx).1).contactDetails =
        jsOr (data "contactDetails") (.str "") ∧
      (PatientDashboard.editDetails
        (PatientDashboard.fetchPatientDetails uid st fx).1).medicalHistory =
        jsOr (data "medicalHistory") (.str "")) ∧
    (∀ (st st1 : DoctorState) (fx fx1 : Effects),
      DoctorDashboard.handleSaveDetails st fx = some (st1, fx1) →
      (DoctorDashboard.editDetails st1).name = st.name ∧
      (DoctorDashboard.editDetails st1).specialization = st.specialization) ∧
    (∀ (st st1 : PatientState) (fx fx1 : Effects),
      PatientDashboard.handleSaveDetails st fx = some (st1, fx1) →
      (PatientDashboard.editDetails st1).name = st.name ∧
      (PatientDashboard.editDetails st1).contactDetails = st.contactDetails ∧
      (PatientDashboard.editDetails st1).medicalHistory = st.medicalHistory) := by
  refine ⟨fun _ => ⟨rfl, rfl, rfl, rfl, rfl, rfl, rfl, rfl, rfl, rfl, rfl⟩,
    fun _ => ⟨rfl, rfl, rfl, rfl, rfl, rfl, rfl, rfl, rfl, rfl, rfl⟩,
    fun _ hn hs => ⟨hn, hs⟩, fun _ hn hc hm => ⟨hn, hc, hm⟩, ?_, ?_, ?_, ?_⟩
  · intro uid st fx data h
    rw [doctor_load uid st fx data h]
    exact ⟨rfl, rfl⟩
  · intro uid st fx data h
    rw [patient_load uid st fx data h]
    exact ⟨rfl, rfl, rfl⟩
  · intro st st1 fx fx1 h
    cases hu : st.userId with
    | none => simp [DoctorDashboard.handleSaveDetails, hu] at h
    | some uid =>
        rw [doctor_save st fx uid hu] at h
        injection h with h
        injection h with h1 _
        subst h1
        exact ⟨rfl, rfl⟩
  · intro st st1 fx fx1 h
    cases hu : st.userId with
    | none => simp [PatientDashboard.handleSaveDetails, hu] at h
    | some uid =>
        rw [patient_save st fx uid hu] at h
        injection h with h
        injection h with h1 _
        subst h1
        exact ⟨rfl, rfl, rfl⟩

/-- Witness of C10: Edit pressed directly after the load of the profile of doctor `d1` and
of client `p1` shows the loaded name, Edit pressed directly after the save of `sampleDoctor`
and of `samplePatient` shows the saved name, and Edit pressed in the initial state, whose
cells agree with the empty loaded profile, leaves them in agreement. -/
theorem C10_edit_keeps_current_fields_witness :
    (DoctorDashboard.editDetails
      (DoctorDashboard.fetchDoctorDetails "d1" DoctorDashboard.init sampleProfiles).1).name =
      .str "Old" ∧
    (∃ st1 fx1, DoctorDashboard.handleSaveDetails sampleDoctor sampleProfiles = some (st1, fx1) ∧
      (DoctorDashboard.editDetails st1).name = .str "Ann") ∧
    (PatientDashboard.editDetails
      (PatientDashboard.fetchPatientDetails "p1" PatientDashboard.init sampleProfiles).1).name =
      .str "Old" ∧
    (∃ st1 fx1,
      PatientDashboard.handleSaveDetails samplePatient sampleProfiles = some (st1, fx1) ∧
      (PatientDashboard.editDetails st1).name = .str "Bob") ∧
    (DoctorDashboard.editDetails DoctorDashboard.init).name =
      jsOr ((DoctorDashboard.editDetails DoctorDashboard.init).doctorDetails "name")
        (.str "") ∧
    (PatientDashboard.editDetails PatientDashboard.init).name =
      jsOr ((PatientDashboard.editDetails PatientDashboard.init).patientDetails "name")
        (.str "") := by
  refine ⟨?_, ?_, ?_, ?_, ?_, ?_⟩
  · exact (C10_edit_keeps_current_fields.2.2.2.2.1 "d1" DoctorDashboard.init sampleProfiles
      (objectOf [("name", .str "Old"), ("role", .str "doctor")]) rfl).1
  · exact ⟨_, _, doctor_save sampleDoctor sampleProfiles "d1" rfl,
      (C10_edit_keeps_current_fields.2.2.2.2.2.2.1 sampleDoctor _ sampleProfiles _
        (doctor_save sampleDoctor sampleProfiles "d1" rfl)).1⟩
  · exact (C10_edit_keeps_current_fields.2.2.2.2.2.1 "p1" PatientDashboard.init sampleProfiles
      (objectOf [("name", .str "Old"), ("role", .str "patient")]) rfl).1
  · exact ⟨_, _, patient_save samplePatient sampleProfiles "p1" rfl,
      (C10_edit_keeps_current_fields.2.2.2.2.2.2.2 samplePatient _ sampleProfiles _
        (patient_save samplePatient sampleProfiles "p1" rfl)).1⟩
  · exact (C10_edit_keeps_current_fields.2.2.1 DoctorDashboard.init rfl rfl).1
  · exact (C10_edit_keeps_current_fields.2.2.2.1 PatientDashboard.init rfl rfl rfl).1

end Editing

end MidTask
